import Mathlib

/-
  Verification development for the Recoup debt-collection engine.

  Shallow embedding of the pure algorithmic core:
  - python-backend/utils/base_rate_history.py   (Bank of England base-rate lookup)
  - python-backend/services/collections.py      (UK statutory late-payment interest)
  - python-services/decision_engine/escalation.py (escalation scoring)
  - ai_collection_system.py                     (scheduler and rule-based payment probability)

  Modelling conventions:
  - Python floats are modelled as rationals; Python round(x, 2) is modelled as
    round-half-to-even at two decimal places (bankersRound below).
  - Python dates are modelled as (year, month, day) triples of naturals; the
    ordering is the lexicographic tuple order CPython uses, and date subtraction
    goes through the proleptic-Gregorian ordinal exactly as CPython datetime does
    (toordinal / fromordinal).
  - date.today() defaults are modelled by passing the resolved current date
    explicitly (the spec requires the clock to be injectable).
  - Python exceptions become an Except value.
-/

namespace Recoup

/-! ## Dates (model of Python datetime.date) -/

structure PyDate where
  year : Nat
  month : Nat
  day : Nat
deriving DecidableEq, Repr

/-- Leap-year test, as in CPython `_is_leap`. -/
def isLeapYear (y : Nat) : Bool :=
  y % 4 == 0 && (y % 100 != 0 || y % 400 == 0)

/-- Number of days in a month (CPython `_days_in_month`). -/
def daysInMonth (y m : Nat) : Nat :=
  if m = 2 then (if isLeapYear y then 29 else 28)
  else if m = 4 ∨ m = 6 ∨ m = 9 ∨ m = 11 then 30
  else 31

/-- A date Python could actually construct (datetime.date validates this). -/
def ValidDate (d : PyDate) : Prop :=
  1 ≤ d.year ∧ d.year ≤ 9999 ∧ 1 ≤ d.month ∧ d.month ≤ 12 ∧
    1 ≤ d.day ∧ d.day ≤ daysInMonth d.year d.month

instance (d : PyDate) : Decidable (ValidDate d) := by
  unfold ValidDate; infer_instance

/-- Cumulative days before the start of each month in a non-leap year
(CPython `_DAYS_BEFORE_MONTH`). -/
def daysBeforeMonthTable (m : Nat) : Nat :=
  match m with
  | 1 => 0 | 2 => 31 | 3 => 59 | 4 => 90 | 5 => 120 | 6 => 151
  | 7 => 181 | 8 => 212 | 9 => 243 | 10 => 273 | 11 => 304 | 12 => 334
  | _ => 0

/-- Days before 1 January of year y (CPython `_days_before_year`). -/
def daysBeforeYear (y : Nat) : Nat :=
  (y - 1) * 365 + (y - 1) / 4 - (y - 1) / 100 + (y - 1) / 400

/-- Proleptic Gregorian ordinal of a date (CPython `date.toordinal`):
1 January of year 1 is day 1. -/
def toOrdinal (d : PyDate) : Nat :=
  daysBeforeYear d.year + daysBeforeMonthTable d.month
    + (if 2 < d.month ∧ isLeapYear d.year then 1 else 0) + d.day

/-- Strict date order: CPython compares (year, month, day) lexicographically. -/
def dateLt (a b : PyDate) : Prop :=
  a.year < b.year ∨
    (a.year = b.year ∧ (a.month < b.month ∨ (a.month = b.month ∧ a.day < b.day)))

/-- Non-strict date order (lexicographic, as in CPython). -/
def dateLe (a b : PyDate) : Prop :=
  a.year < b.year ∨
    (a.year = b.year ∧ (a.month < b.month ∨ (a.month = b.month ∧ a.day ≤ b.day)))

instance (a b : PyDate) : Decidable (dateLt a b) := by
  unfold dateLt; infer_instance

instance (a b : PyDate) : Decidable (dateLe a b) := by
  unfold dateLe; infer_instance

/-- Python date subtraction, in days: CPython subtracts the two ordinals. -/
def subDays (a b : PyDate) : Int :=
  (toOrdinal a : Int) - (toOrdinal b : Int)

/-- Number of days in each month of a non-leap year (CPython `_DAYS_IN_MONTH`). -/
def daysInMonthTable (m : Nat) : Nat :=
  match m with
  | 1 => 31 | 2 => 28 | 3 => 31 | 4 => 30 | 5 => 31 | 6 => 30
  | 7 => 31 | 8 => 31 | 9 => 30 | 10 => 31 | 11 => 30 | 12 => 31
  | _ => 0

/-- Inverse of toOrdinal (CPython `_ord2ymd`, used by `date.fromordinal`). -/
def fromOrdinal (nn : Nat) : PyDate :=
  let n0 := nn - 1
  let n400 := n0 / 146097
  let r400 := n0 % 146097
  let year0 := n400 * 400 + 1
  let n100 := r400 / 36524
  let r100 := r400 % 36524
  let n4 := r100 / 1461
  let r4 := r100 % 1461
  let n1 := r4 / 365
  let n := r4 % 365
  let year := year0 + n100 * 100 + n4 * 4 + n1
  if n1 = 4 ∨ n100 = 4 then
    ⟨year - 1, 12, 31⟩
  else
    let leapyear : Bool := n1 == 3 && (n4 != 24 || n100 == 3)
    let month := (n + 50) / 32
    let preceding := daysBeforeMonthTable month + (if 2 < month ∧ leapyear then 1 else 0)
    if n < preceding then
      let month2 := month - 1
      let preceding2 :=
        preceding - (daysInMonthTable month2 + (if month2 = 2 ∧ leapyear then 1 else 0))
      ⟨year, month2, n - preceding2 + 1⟩
    else
      ⟨year, month, n - preceding + 1⟩

/-- Python `date + timedelta(days=n)` for a non-negative day count:
CPython adds to the ordinal and converts back. -/
def addDays (a : PyDate) (n : Nat) : PyDate :=
  fromOrdinal (toOrdinal a + n)

/-! ## Rounding (model of Python round(x, 2)) -/

/-- Python builtin round to the nearest integer: ties go to the even integer. -/
def bankersRound (q : ℚ) : ℤ :=
  if q + 1/2 = (⌊q + 1/2⌋ : ℚ) ∧ ⌊q + 1/2⌋ % 2 ≠ 0 then ⌊q + 1/2⌋ - 1
  else ⌊q + 1/2⌋

/-- Python round(x, 2): round to two decimal places, ties to even. -/
def round2 (q : ℚ) : ℚ :=
  (bankersRound (q * 100) : ℚ) / 100

/-! ## Bank of England base-rate history
(python-backend/utils/base_rate_history.py) -/

structure BaseRateEntry where
  effective_from : PyDate
  rate : ℚ
  reference_date : PyDate
deriving DecidableEq, Repr

/-- Historical Bank of England base rates.  The Python module sorts this list
descending by effective_from after building it; the literal list below is
written in the source order, which is already descending (proved in
BASE_RATE_HISTORY_sorted), so the sort leaves it unchanged. -/
def BASE_RATE_HISTORY : List BaseRateEntry := [
  ⟨⟨2025, 7, 1⟩, 5.25, ⟨2025, 6, 30⟩⟩,
  ⟨⟨2025, 1, 1⟩, 5.00, ⟨2024, 12, 31⟩⟩,
  ⟨⟨2024, 7, 1⟩, 5.25, ⟨2024, 6, 30⟩⟩,
  ⟨⟨2024, 1, 1⟩, 5.25, ⟨2023, 12, 31⟩⟩,
  ⟨⟨2023, 7, 1⟩, 5.00, ⟨2023, 6, 30⟩⟩,
  ⟨⟨2023, 1, 1⟩, 3.50, ⟨2022, 12, 31⟩⟩,
  ⟨⟨2022, 7, 1⟩, 1.25, ⟨2022, 6, 30⟩⟩,
  ⟨⟨2022, 1, 1⟩, 0.25, ⟨2021, 12, 31⟩⟩,
  ⟨⟨2021, 7, 1⟩, 0.10, ⟨2021, 6, 30⟩⟩,
  ⟨⟨2021, 1, 1⟩, 0.10, ⟨2020, 12, 31⟩⟩,
  ⟨⟨2020, 7, 1⟩, 0.10, ⟨2020, 6, 30⟩⟩,
  ⟨⟨2020, 1, 1⟩, 0.75, ⟨2019, 12, 31⟩⟩
]

/-- Result of get_base_rate_for_due_date (the Python function returns a dict
with keys rate, reference_date, effective_from). -/
structure RateInfo where
  rate : ℚ
  reference_date : PyDate
  effective_from : PyDate
deriving DecidableEq, Repr

/-- get_base_rate_for_due_date: reference date is 30 June of the same year for
due dates in July-December, else 31 December of the previous year; then the
first history entry (scanning newest first) whose reference_date is on or
before that target; if none, fall back to the oldest entry (the Python code
also prints a warning in that case). -/
def getBaseRateForDueDate (due_date : PyDate) : RateInfo :=
  let year := due_date.year
  let month := due_date.month
  let reference_date : PyDate :=
    if 7 ≤ month then ⟨year, 6, 30⟩ else ⟨year - 1, 12, 31⟩
  match BASE_RATE_HISTORY.find? (fun e => decide (dateLe e.reference_date reference_date)) with
  | some entry => ⟨entry.rate, entry.reference_date, entry.effective_from⟩
  | none =>
      let oldest := BASE_RATE_HISTORY.getLast (by decide)
      ⟨oldest.rate, oldest.reference_date, oldest.effective_from⟩

/-- get_current_base_rate: the most recent (first) entry. -/
def getCurrentBaseRate : ℚ :=
  (BASE_RATE_HISTORY.head (by decide)).rate


/-! ## Interest calculator (python-backend/services/collections.py) -/

/-- Bank of England base rate constant used by the non-historical projection
helpers. -/
def BANK_OF_ENGLAND_BASE_RATE : ℚ := 5.25

/-- Statutory interest rate fixed by the Late Payment of Commercial Debts
(Interest) Act 1998. -/
def STATUTORY_INTEREST_RATE : ℚ := 8.0

/-- FIXED_RECOVERY_COSTS tier boundaries and fees (TIER_3 has max infinity in
the Python dict, which only ever feeds the final else branch below). -/
def TIER_1_MAX : ℚ := 999.99
def TIER_1_FEE : ℚ := 40
def TIER_2_MAX : ℚ := 9999.99
def TIER_2_FEE : ℚ := 70
def TIER_3_FEE : ℚ := 100

/-- get_fixed_recovery_cost: banded fixed debt recovery cost. -/
def getFixedRecoveryCost (principal_amount : ℚ) : ℚ :=
  if principal_amount ≤ TIER_1_MAX then TIER_1_FEE
  else if principal_amount ≤ TIER_2_MAX then TIER_2_FEE
  else TIER_3_FEE

/-- The two ValueError conditions raised by calculate_late_payment_interest
(the spec names them InvalidAmount and FutureDueDate). -/
inductive CalcError where
  | invalidAmount
  | futureDueDate
deriving DecidableEq, Repr

/-- Parameters of calculate_late_payment_interest.  current_date defaults to
date.today() in Python; here the resolved evaluation date is passed explicitly
(the spec requires the clock to be injectable). -/
structure InterestCalculationParams where
  principal_amount : ℚ
  due_date : PyDate
  current_date : PyDate
  custom_base_rate : Option ℚ
  use_historical_rate : Bool
deriving DecidableEq, Repr

/-- Result record of calculate_late_payment_interest; the breakdown dict is
flattened into the three breakdown fields. -/
structure InterestCalculation where
  principal_amount : ℚ
  interest_rate : ℚ
  bank_base_rate : ℚ
  statutory_rate : ℚ
  days_overdue : ℤ
  interest_accrued : ℚ
  fixed_recovery_cost : ℚ
  total_owed : ℚ
  daily_interest : ℚ
  breakdown_principal : ℚ
  breakdown_interest : ℚ
  breakdown_fixed_fee : ℚ
deriving DecidableEq, Repr

/-- How calculate_late_payment_interest resolves the bank base rate: custom
override first, else historical lookup, else current rate. -/
def resolveBankBaseRate (params : InterestCalculationParams) : ℚ :=
  match params.custom_base_rate with
  | some r => r
  | none =>
      if params.use_historical_rate then (getBaseRateForDueDate params.due_date).rate
      else getCurrentBaseRate

/-- calculate_late_payment_interest. -/
def calculateLatePaymentInterest (params : InterestCalculationParams) :
    Except CalcError InterestCalculation :=
  let principal_amount := params.principal_amount
  let due_date := params.due_date
  let current_date := params.current_date
  if principal_amount ≤ 0 then .error .invalidAmount
  else if dateLt current_date due_date then .error .futureDueDate
  else
    let days_overdue : ℤ := subDays current_date due_date
    let bank_base_rate : ℚ := resolveBankBaseRate params
    let interest_rate := STATUTORY_INTEREST_RATE + bank_base_rate
    let daily_interest := principal_amount * (interest_rate / 100) / 365
    let interest_accrued := daily_interest * (days_overdue : ℚ)
    let fixed_recovery_cost := getFixedRecoveryCost principal_amount
    let total_owed := principal_amount + interest_accrued + fixed_recovery_cost
    .ok {
      principal_amount := principal_amount,
      interest_rate := round2 interest_rate,
      bank_base_rate := bank_base_rate,
      statutory_rate := STATUTORY_INTEREST_RATE,
      days_overdue := days_overdue,
      interest_accrued := round2 interest_accrued,
      fixed_recovery_cost := fixed_recovery_cost,
      total_owed := round2 total_owed,
      daily_interest := round2 daily_interest,
      breakdown_principal := round2 principal_amount,
      breakdown_interest := round2 interest_accrued,
      breakdown_fixed_fee := fixed_recovery_cost
    }

/-- One snapshot produced by project_interest_accrual. -/
structure ProjectionEntry where
  day : ℕ
  date : PyDate
  interest_accrued : ℚ
  total_owed : ℚ
deriving DecidableEq, Repr

/-- project_interest_accrual: day-by-day projection using the constant
BANK_OF_ENGLAND_BASE_RATE (not the historical rate). -/
def projectInterestAccrual (principal_amount : ℚ) (due_date : PyDate)
    (projection_days : ℕ) : List ProjectionEntry :=
  let fixed_recovery_cost := getFixedRecoveryCost principal_amount
  let bank_base_rate := BANK_OF_ENGLAND_BASE_RATE
  let interest_rate := STATUTORY_INTEREST_RATE + bank_base_rate
  let daily_interest := principal_amount * (interest_rate / 100) / 365
  (List.range (projection_days + 1)).map (fun day =>
    let current_date := addDays due_date day
    let interest_accrued := daily_interest * (day : ℚ)
    let total_owed := principal_amount + interest_accrued + fixed_recovery_cost
    { day := day, date := current_date,
      interest_accrued := round2 interest_accrued,
      total_owed := round2 total_owed })

/-! ## Escalation decision engine
(python-services/decision_engine/escalation.py) -/

/-- Python value passed as debtor_has_assets.  The code tests identity with
the True and False singletons, so any other value (None, a string such as
"true", ...) behaves as unknown. -/
inductive DebtorAssets where
  | pyTrue
  | pyFalse
  | pyNone
  | pyStr (s : String)
deriving DecidableEq, Repr

structure EscalationParams where
  invoice_amount : ℚ
  days_overdue : ℤ
  is_disputed_debt : Bool
  debtor_type : String
  previous_attempts : ℤ
  relationship_value : String
  has_written_contract : Bool
  has_proof_of_delivery : Bool
  debtor_has_assets : DebtorAssets
deriving DecidableEq, Repr

inductive EscalationOption where
  | court
  | agency
  | write_off
  | continue_internal
deriving DecidableEq, Repr

/-- The scores dict; its keys are inserted in the order court, agency,
write_off, continue_internal and only the values are updated afterwards. -/
structure EscalationScores where
  court : ℤ
  agency : ℤ
  write_off : ℤ
  continue_internal : ℤ
deriving DecidableEq, Repr

def scoreOf (s : EscalationScores) : EscalationOption → ℤ
  | .court => s.court
  | .agency => s.agency
  | .write_off => s.write_off
  | .continue_internal => s.continue_internal

/-- The eight scoring factors of generate_escalation_recommendation, applied
in source order (reasoning and warning strings are not modelled). -/
def computeEscalationScores (params : EscalationParams) : EscalationScores :=
  let s : EscalationScores := ⟨0, 0, 0, 0⟩
  -- FACTOR 1: invoice amount
  let s :=
    if params.invoice_amount < 500 then
      { s with write_off := s.write_off + 30, continue_internal := s.continue_internal + 20 }
    else if params.invoice_amount < 1500 then
      { s with court := s.court + 20, agency := s.agency + 10 }
    else if params.invoice_amount < 5000 then
      { s with court := s.court + 30, agency := s.agency + 20 }
    else
      { s with court := s.court + 25, agency := s.agency + 35 }
  -- FACTOR 2: days overdue
  let s :=
    if params.days_overdue < 30 then
      { s with continue_internal := s.continue_internal + 40 }
    else if params.days_overdue < 60 then
      { s with continue_internal := s.continue_internal + 20, court := s.court + 20,
               agency := s.agency + 10 }
    else if params.days_overdue < 90 then
      { s with court := s.court + 30, agency := s.agency + 30 }
    else
      { s with court := s.court + 40, agency := s.agency + 35, write_off := s.write_off + 10 }
  -- FACTOR 3: debt clarity
  let s :=
    if params.is_disputed_debt then
      { s with court := s.court + 40, agency := s.agency - 20, write_off := s.write_off + 10 }
    else
      { s with agency := s.agency + 25, court := s.court + 20 }
  -- FACTOR 4: debtor type
  let s :=
    if params.debtor_type = "business" then
      { s with court := s.court + 30 }
    else if params.debtor_type = "individual" then
      { s with agency := s.agency + 25 }
    else
      { s with court := s.court + 10, agency := s.agency + 10 }
  -- FACTOR 5: previous collection attempts
  let s :=
    if params.previous_attempts < 3 then
      { s with continue_internal := s.continue_internal + 30 }
    else if params.previous_attempts < 6 then
      { s with court := s.court + 20, agency := s.agency + 20 }
    else
      { s with court := s.court + 30, agency := s.agency + 30 }
  -- FACTOR 6: relationship value
  let s :=
    if params.relationship_value = "high" then
      { s with agency := s.agency + 25, court := s.court - 15 }
    else if params.relationship_value = "medium" then
      { s with court := s.court + 10, agency := s.agency + 10 }
    else
      { s with court := s.court + 20 }
  -- FACTOR 7: evidence strength
  let evidence_score : ℤ :=
    (if params.has_written_contract then 1 else 0) +
      (if params.has_proof_of_delivery then 1 else 0)
  let s :=
    if 2 ≤ evidence_score then
      { s with court := s.court + 30 }
    else if evidence_score = 1 then
      { s with court := s.court + 15, agency := s.agency + 10 }
    else
      { s with agency := s.agency + 20, court := s.court - 10 }
  -- FACTOR 8: debtor asset status
  let s :=
    match params.debtor_has_assets with
    | .pyTrue => { s with court := s.court + 25 }
    | .pyFalse => { s with write_off := s.write_off + 20, agency := s.agency + 10 }
    | _ => s
  s

/-- Python max(scores, key=scores.get): the first key (in dict insertion
order court, agency, write_off, continue_internal) is kept unless a later
key scores strictly higher. -/
def pickPrimary (s : EscalationScores) : EscalationOption :=
  [EscalationOption.agency, EscalationOption.write_off,
      EscalationOption.continue_internal].foldl
    (fun best k => if scoreOf s best < scoreOf s k then k else best)
    EscalationOption.court

/-- The fields of the recommendation dict that the claims reference
(reasoning, next_steps, costs and timeline strings are not modelled). -/
structure EscalationRecommendation where
  primary_option : EscalationOption
  confidence : ℤ
deriving DecidableEq, Repr

def generateEscalationRecommendation (params : EscalationParams) :
    EscalationRecommendation :=
  let scores := computeEscalationScores params
  let primary_option := pickPrimary scores
  let confidence := min 95 (max 50 (scoreOf scores primary_option))
  ⟨primary_option, confidence⟩

/-! ## Scheduler and rule-based payment probability
(ai_collection_system.py) -/

/-- The fields of the Invoice dataclass read by the embedded functions
(identifier and contact fields are not used by them). -/
structure Invoice where
  amount : ℚ
  days_overdue : ℤ
  dispute_status : Option String
deriving DecidableEq, Repr

/-- Python truthiness of an Optional[str]: None and the empty string are
falsy. -/
def pyTruthyStr : Option String → Bool
  | none => false
  | some s => !s.isEmpty

/-- PaymentPredictor.rule_based_prediction: elif chain of adjustments to a
base probability of 0.5, clamped into the 0.1 to 0.9 interval. -/
def ruleBasedPrediction (invoice : Invoice) : ℚ :=
  let score : ℚ := 0.5
  let score :=
    if invoice.days_overdue < 15 then score + 0.2
    else if invoice.days_overdue < 30 then score + 0.1
    else if 60 < invoice.days_overdue then score - 0.3
    else score
  let score :=
    if invoice.amount < 100 then score + 0.1
    else if 1000 < invoice.amount then score - 0.1
    else score
  let score :=
    if pyTruthyStr invoice.dispute_status then score - 0.2
    else score
  max 0.1 (min 0.9 score)

/-- The strategy dict fields that determine_collection_action reads. -/
structure CollectionStrategy where
  payment_probability : ℚ
  urgency : String
deriving DecidableEq, Repr

/-- determine_collection_action.  The Redis lookup of
collection_action:invoice:today is modelled by the boolean
already_acted_today (the spec calls the scheduler contract
next_action(days_overdue, user_tier, already_acted_today)). -/
def determineCollectionAction (days_overdue : ℤ) (strategy : CollectionStrategy)
    (user_tier : String) (already_acted_today : Bool) : Option String :=
  if already_acted_today then none
  else
    let action : Option String :=
      if days_overdue = 7 then some "gentle_email"
      else if days_overdue = 14 then some "firm_email"
      else if days_overdue = 15 then
        (if user_tier = "growth" ∨ user_tier = "pro" then some "first_sms" else none)
      else if days_overdue = 20 then some "second_reminder"
      else if days_overdue = 25 then
        (if user_tier = "growth" ∨ user_tier = "pro" then some "first_ai_call" else none)
      else if days_overdue = 30 then some "final_notice"
      else if days_overdue = 35 then
        (if user_tier = "pro" then some "second_ai_call" else none)
      else if days_overdue = 40 then
        (if user_tier = "growth" ∨ user_tier = "pro" then some "physical_letter" else none)
      else if days_overdue = 45 then
        (if user_tier = "pro" then some "final_ai_call" else none)
      else if days_overdue = 50 then
        (if user_tier = "pro" then some "agency_referral" else none)
      else none
    let action :=
      if (strategy.urgency = "high" ∨ strategy.urgency = "critical")
          ∧ strategy.payment_probability < 0.3 then
        (if 20 ≤ days_overdue ∧ (user_tier = "growth" ∨ user_tier = "pro") then
          some "immediate_ai_call"
        else action)
      else action
    action

/-! ## Specification-style comparison definitions.
The definitions below follow the wording of the specification claims, to be
compared against the code-derived definitions above. -/

/-- Tie-break rule as the spec describes it: the first option in the fixed
order court, agency, write_off, continue_internal whose score equals the
maximum score. -/
def pickPrimarySpec (s : EscalationScores) : EscalationOption :=
  if s.agency ≤ s.court ∧ s.write_off ≤ s.court ∧ s.continue_internal ≤ s.court then
    .court
  else if s.write_off ≤ s.agency ∧ s.continue_internal ≤ s.agency then
    .agency
  else if s.continue_internal ≤ s.write_off then
    .write_off
  else
    .continue_internal

/-- The rule-based fallback read literally from the claim wording: 0.5
adjusted by every applicable condition independently (add 0.2 if
days_overdue < 15, add 0.1 if days_overdue < 30, ...), clamped to the
interval 0.1 to 0.9.  Modelled from the claim for comparison with
ruleBasedPrediction. -/
def ruleBasedPredictionLiteral (invoice : Invoice) : ℚ :=
  let score : ℚ := 0.5
    + (if invoice.days_overdue < 15 then 0.2 else 0)
    + (if invoice.days_overdue < 30 then 0.1 else 0)
    - (if 60 < invoice.days_overdue then 0.3 else 0)
    + (if invoice.amount < 100 then 0.1 else 0)
    - (if 1000 < invoice.amount then 0.1 else 0)
    - (if pyTruthyStr invoice.dispute_status then 0.2 else 0)
  max 0.1 (min 0.9 score)

/-- The rule-based fallback with the day adjustments read as mutually
exclusive bands (first matching of < 15, < 30, > 60), which is what the
elif chain in the code computes. -/
def ruleBasedPredictionBanded (invoice : Invoice) : ℚ :=
  max 0.1 (min 0.9 (0.5
    + (if invoice.days_overdue < 15 then 0.2
       else if invoice.days_overdue < 30 then 0.1
       else if 60 < invoice.days_overdue then -0.3 else 0)
    + (if invoice.amount < 100 then 0.1
       else if 1000 < invoice.amount then -0.1 else 0)
    + (if pyTruthyStr invoice.dispute_status then -0.2 else 0)))


/-! ## Date lemmas: the lexicographic tuple order agrees with the ordinal order
on valid dates. -/

theorem isLeapYear_iff (y : Nat) :
    isLeapYear y = true ↔ (y % 4 = 0 ∧ (y % 100 ≠ 0 ∨ y % 400 = 0)) := by
  simp [isLeapYear, Bool.and_eq_true, Bool.or_eq_true]

set_option maxHeartbeats 1000000 in
theorem daysBeforeYear_succ (y : Nat) (hy : 1 ≤ y) :
    daysBeforeYear (y + 1) =
      daysBeforeYear y + 365 + (if isLeapYear y then 1 else 0) := by
  unfold daysBeforeYear
  split_ifs with hL
  · have h4 := (isLeapYear_iff y).mp hL
    omega
  · have h4 : ¬ (y % 4 = 0 ∧ (y % 100 ≠ 0 ∨ y % 400 = 0)) :=
      fun hc => hL ((isLeapYear_iff y).mpr hc)
    omega

theorem daysBeforeYear_succ_ge (y : Nat) (hy : 1 ≤ y) :
    daysBeforeYear y + 365 ≤ daysBeforeYear (y + 1) := by
  rw [daysBeforeYear_succ y hy]
  split_ifs <;> omega

theorem daysBeforeYear_le_of_le (y z : Nat) (hy : 1 ≤ y) (hyz : y ≤ z) :
    daysBeforeYear y ≤ daysBeforeYear z := by
  induction z, hyz using Nat.le_induction with
  | base => omega
  | succ n hn ih =>
      have h := daysBeforeYear_succ_ge n (by omega)
      omega

theorem monthDay_le_aux (leap : Bool) :
    ∀ m, m < 13 →
      daysBeforeMonthTable m + (if 2 < m ∧ leap = true then 1 else 0) +
        (if m = 2 then (if leap = true then 29 else 28)
         else if m = 4 ∨ m = 6 ∨ m = 9 ∨ m = 11 then 30 else 31)
        ≤ 365 + (if leap = true then 1 else 0) := by
  cases leap <;> decide

theorem monthDay_le (y m d : Nat) (h3 : 1 ≤ m) (h4 : m ≤ 12) (h6 : d ≤ daysInMonth y m) :
    daysBeforeMonthTable m + (if 2 < m ∧ isLeapYear y then 1 else 0) + d
      ≤ 365 + (if isLeapYear y then 1 else 0) := by
  have haux := monthDay_le_aux (isLeapYear y) m (by omega)
  unfold daysInMonth at h6
  omega

theorem monthOffset_le_aux (leap : Bool) :
    ∀ ma, ma < 13 → ∀ mb, mb < 13 → 1 ≤ ma → ma < mb →
      daysBeforeMonthTable ma + (if 2 < ma ∧ leap = true then 1 else 0) +
        (if ma = 2 then (if leap = true then 29 else 28)
         else if ma = 4 ∨ ma = 6 ∨ ma = 9 ∨ ma = 11 then 30 else 31)
        ≤ daysBeforeMonthTable mb + (if 2 < mb ∧ leap = true then 1 else 0) := by
  cases leap <;> decide

theorem monthOffset_le (y ma mb : Nat) (h1 : 1 ≤ ma) (h2 : ma < mb) (h3 : mb ≤ 12) :
    daysBeforeMonthTable ma + (if 2 < ma ∧ isLeapYear y then 1 else 0) + daysInMonth y ma
      ≤ daysBeforeMonthTable mb + (if 2 < mb ∧ isLeapYear y then 1 else 0) := by
  have haux := monthOffset_le_aux (isLeapYear y) ma (by omega) mb (by omega) h1 h2
  unfold daysInMonth
  omega

theorem toOrdinal_le_daysBeforeYear_succ (a : PyDate) (ha : ValidDate a) :
    toOrdinal a ≤ daysBeforeYear (a.year + 1) := by
  obtain ⟨ha1, ha2, ha3, ha4, ha5, ha6⟩ := ha
  have hmd := monthDay_le a.year a.month a.day ha3 ha4 ha6
  have hs := daysBeforeYear_succ a.year ha1
  unfold toOrdinal
  omega

theorem daysBeforeYear_lt_toOrdinal (a : PyDate) (ha : ValidDate a) :
    daysBeforeYear a.year < toOrdinal a := by
  obtain ⟨ha1, ha2, ha3, ha4, ha5, ha6⟩ := ha
  unfold toOrdinal
  omega

theorem toOrdinal_lt_of_dateLt {a b : PyDate} (ha : ValidDate a) (hb : ValidDate b)
    (hlt : dateLt a b) : toOrdinal a < toOrdinal b := by
  have hA := toOrdinal_le_daysBeforeYear_succ a ha
  have hC := daysBeforeYear_lt_toOrdinal b hb
  obtain ⟨ha1, ha2, ha3, ha4, ha5, ha6⟩ := ha
  obtain ⟨hb1, hb2, hb3, hb4, hb5, hb6⟩ := hb
  rcases hlt with hy | ⟨hy, hm | ⟨hm, hd⟩⟩
  · have hB := daysBeforeYear_le_of_le (a.year + 1) b.year (by omega) (by omega)
    omega
  · have hmo := monthOffset_le a.year a.month b.month ha3 hm hb4
    unfold toOrdinal
    rw [hy] at hmo ha6 ⊢
    omega
  · unfold toOrdinal
    rw [hy, hm]
    omega

theorem dateLe_iff (a b : PyDate) : dateLe a b ↔ dateLt a b ∨ a = b := by
  rcases a with ⟨y1, m1, d1⟩
  rcases b with ⟨y2, m2, d2⟩
  simp only [dateLe, dateLt, PyDate.mk.injEq]
  omega

theorem dateLe_total_of_not_lt {a b : PyDate} (h : ¬ dateLt a b) : dateLe b a := by
  rcases a with ⟨y1, m1, d1⟩
  rcases b with ⟨y2, m2, d2⟩
  simp only [dateLe, dateLt] at *
  omega

theorem dateLe_refl (a : PyDate) : dateLe a a := by
  simp [dateLe]

theorem dateLe_trans {a b c : PyDate} (h1 : dateLe a b) (h2 : dateLe b c) : dateLe a c := by
  rcases a with ⟨y1, m1, d1⟩
  rcases b with ⟨y2, m2, d2⟩
  rcases c with ⟨y3, m3, d3⟩
  simp only [dateLe] at *
  omega

theorem toOrdinal_le_of_dateLe {a b : PyDate} (ha : ValidDate a) (hb : ValidDate b)
    (hle : dateLe a b) : toOrdinal a ≤ toOrdinal b := by
  rcases (dateLe_iff a b).mp hle with h | h
  · exact le_of_lt (toOrdinal_lt_of_dateLt ha hb h)
  · rw [h]

theorem not_dateLt_of_toOrdinal_le {a b : PyDate} (ha : ValidDate a) (hb : ValidDate b)
    (h : toOrdinal a ≤ toOrdinal b) : ¬ dateLt b a := by
  intro hlt
  have := toOrdinal_lt_of_dateLt hb ha hlt
  omega

theorem subDays_nonneg {due cur : PyDate} (hd : ValidDate due) (hc : ValidDate cur)
    (h : ¬ dateLt cur due) : 0 ≤ subDays cur due := by
  have hle : dateLe due cur := dateLe_total_of_not_lt h
  have := toOrdinal_le_of_dateLe hd hc hle
  unfold subDays
  omega

theorem not_dateLt_of_subDays_nonneg {due cur : PyDate} (hd : ValidDate due)
    (hc : ValidDate cur) (h : 0 ≤ subDays cur due) : ¬ dateLt cur due := by
  apply not_dateLt_of_toOrdinal_le hd hc
  unfold subDays at h
  omega

/-! ## Rounding lemmas -/

theorem bankersRound_mono {x y : ℚ} (h : x ≤ y) : bankersRound x ≤ bankersRound y := by
  have hab : ⌊x + 1/2⌋ ≤ ⌊y + 1/2⌋ := Int.floor_le_floor (by linarith)
  unfold bankersRound
  by_cases h1 : x + 1/2 = (⌊x + 1/2⌋ : ℚ) ∧ ⌊x + 1/2⌋ % 2 ≠ 0
  · rw [if_pos h1]
    split_ifs <;> omega
  · rw [if_neg h1]
    by_cases h2 : y + 1/2 = (⌊y + 1/2⌋ : ℚ) ∧ ⌊y + 1/2⌋ % 2 ≠ 0
    · rw [if_pos h2]
      by_contra hc
      have hab2 : ⌊x + 1/2⌋ = ⌊y + 1/2⌋ := by omega
      apply h1
      refine ⟨?_, by rw [hab2]; exact h2.2⟩
      have h21 := h2.1
      rw [← hab2] at h21
      have hfl : ((⌊x + 1/2⌋ : ℤ) : ℚ) ≤ x + 1/2 := Int.floor_le _
      linarith
    · rw [if_neg h2]
      omega

theorem round2_mono {x y : ℚ} (h : x ≤ y) : round2 x ≤ round2 y := by
  unfold round2
  rw [div_le_div_iff_of_pos_right (by norm_num : (0:ℚ) < 100)]
  exact_mod_cast bankersRound_mono (by linarith)
theorem BASE_RATE_HISTORY_sorted :
    BASE_RATE_HISTORY.Pairwise (fun a b => dateLe b.reference_date a.reference_date) := by
  decide

/-- On a list whose reference dates descend, find? returns an entry whose
reference date is maximal among those satisfying the cutoff predicate. -/
theorem find_first_is_max {l : List BaseRateEntry} {t : PyDate}
    (hsort : l.Pairwise (fun a b => dateLe b.reference_date a.reference_date))
    {e : BaseRateEntry}
    (hfind : l.find? (fun x => decide (dateLe x.reference_date t)) = some e) :
    e ∈ l ∧ dateLe e.reference_date t ∧
      ∀ e2 ∈ l, dateLe e2.reference_date t → dateLe e2.reference_date e.reference_date := by
  induction l with
  | nil => simp at hfind
  | cons hd tl ih =>
      rcases List.pairwise_cons.mp hsort with ⟨hhd, htl⟩
      by_cases hp : dateLe hd.reference_date t
      · rw [List.find?_cons_of_pos _ (by simpa using hp)] at hfind
        obtain rfl : hd = e := by injection hfind
        refine ⟨List.mem_cons_self _ _, hp, ?_⟩
        intro e2 he2 _
        rcases List.mem_cons.mp he2 with rfl | he2
        · exact dateLe_refl _
        · exact hhd e2 he2
      · rw [List.find?_cons_of_neg _ (by simpa using hp)] at hfind
        obtain ⟨hmem, hle, hmax⟩ := ih htl hfind
        refine ⟨List.mem_cons_of_mem _ hmem, hle, ?_⟩
        intro e2 he2 h2t
        rcases List.mem_cons.mp he2 with rfl | he2
        · exact absurd h2t hp
        · exact hmax e2 he2 h2t

/-! ## Claim theorems -/

/-- C2: get_fixed_recovery_cost is the three-band step function of the
principal: at most 999.99 gives 40, at most 9999.99 gives 70, larger gives
100; with the boundary values 999.99, 1000.00, 9999.99 and 10000.00 mapping
to 40, 70, 70 and 100. -/
theorem getFixedRecoveryCost_bands (p : ℚ) :
    (p ≤ 999.99 → getFixedRecoveryCost p = 40) ∧
    (999.99 < p → p ≤ 9999.99 → getFixedRecoveryCost p = 70) ∧
    (9999.99 < p → getFixedRecoveryCost p = 100) ∧
    getFixedRecoveryCost 999.99 = 40 ∧
    getFixedRecoveryCost 1000 = 70 ∧
    getFixedRecoveryCost 9999.99 = 70 ∧
    getFixedRecoveryCost 10000 = 100 := by
  unfold getFixedRecoveryCost TIER_1_MAX TIER_1_FEE TIER_2_MAX TIER_2_FEE TIER_3_FEE
  refine ⟨?_, ?_, ?_, by norm_num, by norm_num, by norm_num, by norm_num⟩ <;>
    intros <;> split_ifs <;> first | rfl | linarith

/-- C2 witness: the banded characterization evaluated at concrete inputs in
each band. -/
theorem getFixedRecoveryCost_bands_witness :
    getFixedRecoveryCost 500 = 40 ∧ getFixedRecoveryCost 5000 = 70 ∧
      getFixedRecoveryCost 20000 = 100 :=
  ⟨(getFixedRecoveryCost_bands 500).1 (by norm_num),
   (getFixedRecoveryCost_bands 5000).2.1 (by norm_num) (by norm_num),
   (getFixedRecoveryCost_bands 20000).2.2.1 (by norm_num)⟩

/-- C6: the escalation boundary scenario (amount 3000, 95 days overdue,
disputed, business debtor, 7 previous attempts, low relationship value,
written contract and proof of delivery, debtor_has_assets given as the
string "true") selects court as the primary option. -/
theorem escalation_boundary_scenario_selects_court :
    (generateEscalationRecommendation
      ⟨3000, 95, true, "business", 7, "low", true, true, .pyStr "true"⟩).primary_option
      = EscalationOption.court := by
  decide

/-- C7: whenever an action was already recorded for the invoice today, the
scheduler returns no action, for every days_overdue value, every strategy
(urgency and payment probability) and every user tier; neither the threshold
table nor the urgency override fires. -/
theorem determineCollectionAction_idempotent_per_day
    (days_overdue : ℤ) (strategy : CollectionStrategy) (user_tier : String) :
    determineCollectionAction days_overdue strategy user_tier true = none := by
  rfl

/-- C9: the threshold table matches days_overdue exactly: off the ten
threshold values, and with the urgency override condition not holding, the
scheduler returns no action. -/
theorem determineCollectionAction_exact_thresholds_only
    (days_overdue : ℤ) (strategy : CollectionStrategy) (user_tier : String)
    (already_acted_today : Bool)
    (hdays : days_overdue ∉ ([7, 14, 15, 20, 25, 30, 35, 40, 45, 50] : List ℤ))
    (hoverride : ¬ ((strategy.urgency = "high" ∨ strategy.urgency = "critical")
        ∧ strategy.payment_probability < 0.3
        ∧ 20 ≤ days_overdue ∧ (user_tier = "growth" ∨ user_tier = "pro"))) :
    determineCollectionAction days_overdue strategy user_tier already_acted_today
      = none := by
  simp only [List.mem_cons, List.not_mem_nil, or_false, not_or] at hdays
  obtain ⟨h7, h14, h15, h20, h25, h30, h35, h40, h45, h50⟩ := hdays
  cases already_acted_today with
  | true => rfl
  | false =>
      simp only [determineCollectionAction, Bool.false_eq_true, if_false]
      by_cases hc1 : (strategy.urgency = "high" ∨ strategy.urgency = "critical")
          ∧ strategy.payment_probability < 0.3
      · rw [if_pos hc1,
          if_neg (fun hc2 => hoverride ⟨hc1.1, hc1.2, hc2.1, hc2.2⟩)]
        split_ifs <;> first | rfl | omega
      · rw [if_neg hc1]
        split_ifs <;> first | rfl | omega

/-- C9 witness: a non-threshold day with a calm strategy yields no action. -/
theorem determineCollectionAction_exact_thresholds_only_witness :
    determineCollectionAction 23 ⟨0.8, "low"⟩ "pro" false = none :=
  determineCollectionAction_exact_thresholds_only 23 ⟨0.8, "low"⟩ "pro" false
    (by decide) (by norm_num)

/-- C10: ties between escalation options are broken deterministically in
favor of the first option in the fixed order court, agency, write_off,
continue_internal; the chosen option always attains the maximal score, and
the primary_option of the full recommendation is a function of the scores
alone. -/
theorem pickPrimary_first_in_fixed_order :
    (∀ s : EscalationScores, pickPrimary s = pickPrimarySpec s ∧
      ∀ o : EscalationOption, scoreOf s o ≤ scoreOf s (pickPrimary s)) ∧
    (∀ params : EscalationParams,
      (generateEscalationRecommendation params).primary_option
        = pickPrimarySpec (computeEscalationScores params)) := by
  have hmain : ∀ s : EscalationScores, pickPrimary s = pickPrimarySpec s := by
    intro s
    simp only [pickPrimary, pickPrimarySpec, List.foldl_cons, List.foldl_nil]
    split_ifs <;> (try simp only [scoreOf] at *) <;> first | rfl | omega
  refine ⟨fun s => ⟨hmain s, ?_⟩, fun params => ?_⟩
  · intro o
    rw [hmain s]
    simp only [pickPrimarySpec]
    split_ifs <;> cases o <;> (try simp only [scoreOf] at *) <;> omega
  · show pickPrimary (computeEscalationScores params) = _
    exact hmain _

/-- C8 counterexample: at 10 days overdue the code takes only the first
branch of the elif chain (plus 0.2), while the claim read literally adds
both the under-15 and the under-30 adjustments (plus 0.3). -/
theorem ruleBasedPrediction_counterexample :
    ruleBasedPrediction ⟨500, 10, none⟩ = 0.7 ∧
    ruleBasedPredictionLiteral ⟨500, 10, none⟩ = 0.8 ∧
    ruleBasedPrediction ⟨500, 10, none⟩ ≠ ruleBasedPredictionLiteral ⟨500, 10, none⟩ := by
  have h1 : ruleBasedPrediction ⟨500, 10, none⟩ = 0.7 := by
    simp only [ruleBasedPrediction, pyTruthyStr]
    norm_num [min_def, max_def]
  have h2 : ruleBasedPredictionLiteral ⟨500, 10, none⟩ = 0.8 := by
    simp only [ruleBasedPredictionLiteral, pyTruthyStr]
    norm_num [min_def, max_def]
  refine ⟨h1, h2, ?_⟩
  rw [h1, h2]
  norm_num

/-- C8 amended: the rule-based fallback equals 0.5 adjusted by the first
matching days-overdue band (add 0.2 if under 15, else add 0.1 if under 30,
else subtract 0.3 if over 60), the amount adjustments and the dispute
adjustment, clamped to the interval 0.1 to 0.9; in particular the returned
probability always lies within that interval. -/
theorem ruleBasedPrediction_banded_and_clamped (invoice : Invoice) :
    ruleBasedPrediction invoice = ruleBasedPredictionBanded invoice ∧
    0.1 ≤ ruleBasedPrediction invoice ∧ ruleBasedPrediction invoice ≤ 0.9 := by
  refine ⟨?_, ?_, ?_⟩
  · simp only [ruleBasedPrediction, ruleBasedPredictionBanded]
    split_ifs <;> norm_num
  · simp only [ruleBasedPrediction]
    exact le_max_left _ _
  · simp only [ruleBasedPrediction]
    exact max_le (by norm_num) (le_trans (min_le_left _ _) (by norm_num))

/-- C1: get_base_rate_for_due_date computes the target reference date as 30
June of the due year when the due month is July-December and 31 December of
the prior year when it is January-June, and returns the first entry of the
descending-sorted history whose reference_date is at most that target
(equivalently, the entry with the greatest such reference_date), whenever
such an entry exists; in particular a due date of 2024-08-15 resolves to the
entry with reference_date 2024-06-30 and a due date of 2024-03-01 to the
entry with reference_date 2023-12-31. -/
theorem getBaseRateForDueDate_first_match (due : PyDate) (target : PyDate)
    (htarget : target = if 7 ≤ due.month then ⟨due.year, 6, 30⟩
      else ⟨due.year - 1, 12, 31⟩)
    (hexists : ∃ e ∈ BASE_RATE_HISTORY, dateLe e.reference_date target) :
    (∃ e ∈ BASE_RATE_HISTORY,
      getBaseRateForDueDate due = ⟨e.rate, e.reference_date, e.effective_from⟩ ∧
      dateLe e.reference_date target ∧
      ∀ e2 ∈ BASE_RATE_HISTORY, dateLe e2.reference_date target →
        dateLe e2.reference_date e.reference_date) ∧
    (getBaseRateForDueDate ⟨2024, 8, 15⟩).reference_date = ⟨2024, 6, 30⟩ ∧
    (getBaseRateForDueDate ⟨2024, 8, 15⟩).rate = 5.25 ∧
    (getBaseRateForDueDate ⟨2024, 3, 1⟩).reference_date = ⟨2023, 12, 31⟩ ∧
    (getBaseRateForDueDate ⟨2024, 3, 1⟩).rate = 5.25 := by
  refine ⟨?_, by decide, by with_unfolding_all decide, by decide,
    by with_unfolding_all decide⟩
  obtain ⟨e0, he0, he0t⟩ := hexists
  have hsome : (BASE_RATE_HISTORY.find?
      (fun e => decide (dateLe e.reference_date target))).isSome := by
    rw [List.find?_isSome]
    exact ⟨e0, he0, by simpa using he0t⟩
  obtain ⟨e, hfind⟩ := Option.isSome_iff_exists.mp hsome
  obtain ⟨hmem, hle, hmax⟩ := find_first_is_max BASE_RATE_HISTORY_sorted hfind
  refine ⟨e, hmem, ?_, hle, hmax⟩
  simp only [getBaseRateForDueDate]
  rw [← htarget, hfind]

/-- C1 witness: the first-match characterization instantiated at the due
date 2024-08-15, whose target reference date is 2024-06-30. -/
theorem getBaseRateForDueDate_first_match_witness :
    (∃ e ∈ BASE_RATE_HISTORY,
      getBaseRateForDueDate ⟨2024, 8, 15⟩ = ⟨e.rate, e.reference_date, e.effective_from⟩ ∧
      dateLe e.reference_date ⟨2024, 6, 30⟩ ∧
      ∀ e2 ∈ BASE_RATE_HISTORY, dateLe e2.reference_date ⟨2024, 6, 30⟩ →
        dateLe e2.reference_date e.reference_date) ∧
    (getBaseRateForDueDate ⟨2024, 8, 15⟩).reference_date = ⟨2024, 6, 30⟩ ∧
    (getBaseRateForDueDate ⟨2024, 8, 15⟩).rate = 5.25 ∧
    (getBaseRateForDueDate ⟨2024, 3, 1⟩).reference_date = ⟨2023, 12, 31⟩ ∧
    (getBaseRateForDueDate ⟨2024, 3, 1⟩).rate = 5.25 :=
  getBaseRateForDueDate_first_match ⟨2024, 8, 15⟩ ⟨2024, 6, 30⟩ (by decide) (by decide)

/-- C3: calculate_late_payment_interest errors exactly when the principal is
nonpositive (InvalidAmount, checked first) or the due date is strictly after
the evaluation date (FutureDueDate); in every other case it returns a result
whose days_overdue is the exact non-negative day difference and whose
principal is passed through unclamped. -/
theorem calculateLatePaymentInterest_validation (params : InterestCalculationParams)
    (hdue : ValidDate params.due_date) (hcur : ValidDate params.current_date) :
    ((∃ e, calculateLatePaymentInterest params = .error e) ↔
      (params.principal_amount ≤ 0 ∨ dateLt params.current_date params.due_date)) ∧
    (calculateLatePaymentInterest params = .error .invalidAmount ↔
      params.principal_amount ≤ 0) ∧
    (calculateLatePaymentInterest params = .error .futureDueDate ↔
      (0 < params.principal_amount ∧ dateLt params.current_date params.due_date)) ∧
    (0 < params.principal_amount → ¬ dateLt params.current_date params.due_date →
      ∃ c, calculateLatePaymentInterest params = .ok c ∧
        c.days_overdue = subDays params.current_date params.due_date ∧
        0 ≤ c.days_overdue ∧
        c.principal_amount = params.principal_amount) := by
  simp only [calculateLatePaymentInterest]
  by_cases h1 : params.principal_amount ≤ 0
  · rw [if_pos h1]
    refine ⟨⟨fun _ => Or.inl h1, fun _ => ⟨.invalidAmount, rfl⟩⟩,
      iff_of_true rfl h1, ⟨fun h => ?_, fun h => absurd h1 (not_le.mpr h.1)⟩,
      fun hp _ => absurd h1 (not_le.mpr hp)⟩
    exact absurd (Except.error.inj h) (by simp)
  · rw [if_neg h1]
    have hp : 0 < params.principal_amount := not_le.mp h1
    by_cases h2 : dateLt params.current_date params.due_date
    · rw [if_pos h2]
      refine ⟨⟨fun _ => Or.inr h2, fun _ => ⟨.futureDueDate, rfl⟩⟩,
        ⟨fun h => ?_, fun h => absurd h h1⟩,
        iff_of_true rfl ⟨hp, h2⟩,
        fun _ hn => absurd h2 hn⟩
      exact absurd (Except.error.inj h) (by simp)
    · rw [if_neg h2]
      refine ⟨⟨fun h => ?_, fun h => ?_⟩,
        iff_of_false (by simp) h1,
        iff_of_false (by simp) (fun hc => absurd hc.2 h2),
        fun _ _ => ⟨_, rfl, rfl, subDays_nonneg hdue hcur h2, rfl⟩⟩
      · obtain ⟨e, he⟩ := h
        simp at he
      · rcases h with h | h
        · exact absurd h h1
        · exact absurd h h2

/-- C3 witness: the validation characterization instantiated at a concrete
overdue invoice. -/
theorem calculateLatePaymentInterest_validation_witness :
    ((∃ e, calculateLatePaymentInterest
        ⟨1000, ⟨2024, 8, 15⟩, ⟨2024, 9, 14⟩, none, true⟩ = .error e) ↔
      ((1000 : ℚ) ≤ 0 ∨ dateLt ⟨2024, 9, 14⟩ ⟨2024, 8, 15⟩)) ∧
    (calculateLatePaymentInterest ⟨1000, ⟨2024, 8, 15⟩, ⟨2024, 9, 14⟩, none, true⟩
        = .error .invalidAmount ↔ (1000 : ℚ) ≤ 0) ∧
    (calculateLatePaymentInterest ⟨1000, ⟨2024, 8, 15⟩, ⟨2024, 9, 14⟩, none, true⟩
        = .error .futureDueDate ↔
      ((0 : ℚ) < 1000 ∧ dateLt ⟨2024, 9, 14⟩ ⟨2024, 8, 15⟩)) ∧
    ((0 : ℚ) < 1000 → ¬ dateLt ⟨2024, 9, 14⟩ ⟨2024, 8, 15⟩ →
      ∃ c, calculateLatePaymentInterest
          ⟨1000, ⟨2024, 8, 15⟩, ⟨2024, 9, 14⟩, none, true⟩ = .ok c ∧
        c.days_overdue = subDays ⟨2024, 9, 14⟩ ⟨2024, 8, 15⟩ ∧
        0 ≤ c.days_overdue ∧
        c.principal_amount = 1000) :=
  calculateLatePaymentInterest_validation
    ⟨1000, ⟨2024, 8, 15⟩, ⟨2024, 9, 14⟩, none, true⟩ (by decide) (by decide)

/-- C4 counterexample: with principal 0.01 and due date 2024-08-15 the
returned interest_accrued is 0.00 both one day and two days after the due
date (the rounding to two decimals merges them), so the returned value is
not strictly increasing in days_overdue for every fixed principal. -/
theorem interest_accrued_not_strictly_increasing :
    dateLe ⟨2024, 8, 15⟩ ⟨2024, 8, 16⟩ ∧
    dateLt ⟨2024, 8, 16⟩ ⟨2024, 8, 17⟩ ∧
    (calculateLatePaymentInterest
        ⟨0.01, ⟨2024, 8, 15⟩, ⟨2024, 8, 16⟩, none, true⟩).toOption.map
      (fun c => c.interest_accrued) = some 0 ∧
    (calculateLatePaymentInterest
        ⟨0.01, ⟨2024, 8, 15⟩, ⟨2024, 8, 17⟩, none, true⟩).toOption.map
      (fun c => c.interest_accrued) = some 0 := by
  refine ⟨by decide, by decide, ?_, ?_⟩ <;> with_unfolding_all decide

/-- C4 amended: for every principal > 0, fixed base-rate configuration with
a non-negative resolved rate, and evaluation dates c1 before c2 (both on or
after the due date), the pre-rounding interest accrued is strictly
increasing in days overdue, and the returned interest_accrued (rounded to
two decimal places at the point of return) is monotone non-decreasing;
strictness can be lost only through the final rounding. -/
theorem interest_accrued_monotone (p : ℚ) (due c1 c2 : PyDate)
    (cbr : Option ℚ) (hist : Bool)
    (hdue : ValidDate due) (hc1 : ValidDate c1) (hc2 : ValidDate c2)
    (hp : 0 < p)
    (hrate : 0 ≤ resolveBankBaseRate ⟨p, due, c1, cbr, hist⟩)
    (h1 : dateLe due c1) (h2 : dateLt c1 c2) :
    ∃ i1 i2,
      calculateLatePaymentInterest ⟨p, due, c1, cbr, hist⟩ = .ok i1 ∧
      calculateLatePaymentInterest ⟨p, due, c2, cbr, hist⟩ = .ok i2 ∧
      i1.interest_accrued ≤ i2.interest_accrued ∧
      p * ((STATUTORY_INTEREST_RATE + resolveBankBaseRate ⟨p, due, c1, cbr, hist⟩) / 100)
          / 365 * (subDays c1 due : ℚ)
        < p * ((STATUTORY_INTEREST_RATE + resolveBankBaseRate ⟨p, due, c1, cbr, hist⟩) / 100)
          / 365 * (subDays c2 due : ℚ) := by
  have hle2 : dateLe due c2 := dateLe_trans h1 ((dateLe_iff c1 c2).mpr (Or.inl h2))
  have hn1 : ¬ dateLt c1 due :=
    not_dateLt_of_toOrdinal_le hdue hc1 (toOrdinal_le_of_dateLe hdue hc1 h1)
  have hn2 : ¬ dateLt c2 due :=
    not_dateLt_of_toOrdinal_le hdue hc2 (toOrdinal_le_of_dateLe hdue hc2 hle2)
  have hdays : subDays c1 due < subDays c2 due := by
    have := toOrdinal_lt_of_dateLt hc1 hc2 h2
    unfold subDays
    omega
  have hdaysq : (subDays c1 due : ℚ) < (subDays c2 due : ℚ) := by exact_mod_cast hdays
  have hSB : 0 < STATUTORY_INTEREST_RATE + resolveBankBaseRate ⟨p, due, c1, cbr, hist⟩ := by
    have h8 : STATUTORY_INTEREST_RATE = 8 := by norm_num [STATUTORY_INTEREST_RATE]
    rw [h8]
    linarith
  have hdaily : 0 < p * ((STATUTORY_INTEREST_RATE
      + resolveBankBaseRate ⟨p, due, c1, cbr, hist⟩) / 100) / 365 :=
    div_pos (mul_pos hp (div_pos hSB (by norm_num))) (by norm_num)
  have hres : resolveBankBaseRate ⟨p, due, c2, cbr, hist⟩
      = resolveBankBaseRate ⟨p, due, c1, cbr, hist⟩ := rfl
  simp only [calculateLatePaymentInterest]
  rw [if_neg (not_le.mpr hp), if_neg (not_le.mpr hp), if_neg hn1, if_neg hn2]
  refine ⟨_, _, rfl, rfl, ?_, ?_⟩
  · rw [hres]
    exact round2_mono (mul_le_mul_of_nonneg_left (le_of_lt hdaysq) (le_of_lt hdaily))
  · exact mul_lt_mul_of_pos_left hdaysq hdaily

/-- C4 amended witness: principal 1000, due 2024-08-15, evaluated 30 and 60
days later. -/
theorem interest_accrued_monotone_witness :
    ∃ i1 i2,
      calculateLatePaymentInterest
        ⟨1000, ⟨2024, 8, 15⟩, ⟨2024, 9, 14⟩, none, true⟩ = .ok i1 ∧
      calculateLatePaymentInterest
        ⟨1000, ⟨2024, 8, 15⟩, ⟨2024, 10, 14⟩, none, true⟩ = .ok i2 ∧
      i1.interest_accrued ≤ i2.interest_accrued ∧
      (1000 : ℚ) * ((STATUTORY_INTEREST_RATE
          + resolveBankBaseRate ⟨1000, ⟨2024, 8, 15⟩, ⟨2024, 9, 14⟩, none, true⟩) / 100)
          / 365 * (subDays ⟨2024, 9, 14⟩ ⟨2024, 8, 15⟩ : ℚ)
        < (1000 : ℚ) * ((STATUTORY_INTEREST_RATE
          + resolveBankBaseRate ⟨1000, ⟨2024, 8, 15⟩, ⟨2024, 9, 14⟩, none, true⟩) / 100)
          / 365 * (subDays ⟨2024, 10, 14⟩ ⟨2024, 8, 15⟩ : ℚ) :=
  interest_accrued_monotone 1000 ⟨2024, 8, 15⟩ ⟨2024, 9, 14⟩ ⟨2024, 10, 14⟩ none true
    (by decide) (by decide) (by decide) (by norm_num)
    (by with_unfolding_all decide) (by decide) (by decide)

set_option maxRecDepth 10000 in
/-- C5 counterexample: project_interest_accrual uses the constant bank rate
5.25, while calculate_late_payment_interest under default settings resolves
the historical rate (5.00 for a due date of 2025-03-01); the day-2 entry
reports interest 0.73 but the calculator evaluated two days after the due
date returns 0.71. -/
theorem projectInterestAccrual_rate_mismatch :
    (projectInterestAccrual 1000 ⟨2025, 3, 1⟩ 2).length = 3 ∧
    ((projectInterestAccrual 1000 ⟨2025, 3, 1⟩ 2)[2]?).map
        (fun pe => (pe.day, pe.date, pe.interest_accrued))
      = some (2, (⟨2025, 3, 3⟩ : PyDate), (0.73 : ℚ)) ∧
    subDays ⟨2025, 3, 3⟩ ⟨2025, 3, 1⟩ = 2 ∧
    dateLe ⟨2025, 3, 1⟩ ⟨2025, 3, 3⟩ ∧
    (calculateLatePaymentInterest
        ⟨1000, ⟨2025, 3, 1⟩, ⟨2025, 3, 3⟩, none, true⟩).toOption.map
      (fun c => c.interest_accrued) = some 0.71 ∧
    (0.73 : ℚ) ≠ 0.71 := by
  refine ⟨by simp [projectInterestAccrual], ?_, by decide, by decide, ?_, by norm_num⟩
  · with_unfolding_all decide
  · with_unfolding_all decide

/-- C5 amended: project_interest_accrual returns exactly projection_days + 1
entries; the entry for day d has day d, date equal to the due date plus d
days, and interest_accrued and total_owed equal to the values returned by
calculate_late_payment_interest with the same principal and due date, an
evaluation date exactly d days after the due date, and custom_base_rate
equal to the constant BANK_OF_ENGLAND_BASE_RATE (the projection uses that
constant, not the default historical rate). -/
theorem projectInterestAccrual_matches_calculator (p : ℚ) (due : PyDate) (pd : ℕ)
    (hp : 0 < p) (hdue : ValidDate due) :
    (projectInterestAccrual p due pd).length = pd + 1 ∧
    ∀ d : ℕ, d ≤ pd →
      (projectInterestAccrual p due pd)[d]? = some {
          day := d, date := addDays due d,
          interest_accrued := round2 (p * ((STATUTORY_INTEREST_RATE
            + BANK_OF_ENGLAND_BASE_RATE) / 100) / 365 * (d : ℚ)),
          total_owed := round2 (p + p * ((STATUTORY_INTEREST_RATE
            + BANK_OF_ENGLAND_BASE_RATE) / 100) / 365 * (d : ℚ)
            + getFixedRecoveryCost p) } ∧
      ∀ cur : PyDate, ValidDate cur → subDays cur due = (d : ℤ) →
        ∃ c, calculateLatePaymentInterest
            ⟨p, due, cur, some BANK_OF_ENGLAND_BASE_RATE, true⟩ = .ok c ∧
          c.days_overdue = (d : ℤ) ∧
          c.interest_accrued = round2 (p * ((STATUTORY_INTEREST_RATE
            + BANK_OF_ENGLAND_BASE_RATE) / 100) / 365 * (d : ℚ)) ∧
          c.total_owed = round2 (p + p * ((STATUTORY_INTEREST_RATE
            + BANK_OF_ENGLAND_BASE_RATE) / 100) / 365 * (d : ℚ)
            + getFixedRecoveryCost p) := by
  refine ⟨by simp [projectInterestAccrual], ?_⟩
  intro d hd
  constructor
  · have hlt : d < pd + 1 := by omega
    simp only [projectInterestAccrual, List.getElem?_map, List.getElem?_range, hlt,
      if_true]
    rfl
  · intro cur hvc hsub
    have hn : ¬ dateLt cur due :=
      not_dateLt_of_subDays_nonneg hdue hvc (by rw [hsub]; exact Int.ofNat_nonneg d)
    simp only [calculateLatePaymentInterest]
    rw [if_neg (not_le.mpr hp), if_neg hn]
    refine ⟨_, rfl, ?_, ?_, ?_⟩ <;>
      simp only [resolveBankBaseRate, hsub] <;> push_cast <;> rfl

/-- C5 amended witness: principal 1000, due date 2025-03-01, 90 projected
days. -/
theorem projectInterestAccrual_matches_calculator_witness :
    (projectInterestAccrual 1000 ⟨2025, 3, 1⟩ 90).length = 90 + 1 ∧
    ∀ d : ℕ, d ≤ 90 →
      (projectInterestAccrual 1000 ⟨2025, 3, 1⟩ 90)[d]? = some {
          day := d, date := addDays ⟨2025, 3, 1⟩ d,
          interest_accrued := round2 ((1000 : ℚ) * ((STATUTORY_INTEREST_RATE
            + BANK_OF_ENGLAND_BASE_RATE) / 100) / 365 * (d : ℚ)),
          total_owed := round2 ((1000 : ℚ) + (1000 : ℚ) * ((STATUTORY_INTEREST_RATE
            + BANK_OF_ENGLAND_BASE_RATE) / 100) / 365 * (d : ℚ)
            + getFixedRecoveryCost 1000) } ∧
      ∀ cur : PyDate, ValidDate cur → subDays cur ⟨2025, 3, 1⟩ = (d : ℤ) →
        ∃ c, calculateLatePaymentInterest
            ⟨1000, ⟨2025, 3, 1⟩, cur, some BANK_OF_ENGLAND_BASE_RATE, true⟩ = .ok c ∧
          c.days_overdue = (d : ℤ) ∧
          c.interest_accrued = round2 ((1000 : ℚ) * ((STATUTORY_INTEREST_RATE
            + BANK_OF_ENGLAND_BASE_RATE) / 100) / 365 * (d : ℚ)) ∧
          c.total_owed = round2 ((1000 : ℚ) + (1000 : ℚ) * ((STATUTORY_INTEREST_RATE
            + BANK_OF_ENGLAND_BASE_RATE) / 100) / 365 * (d : ℚ)
            + getFixedRecoveryCost 1000) :=
  projectInterestAccrual_matches_calculator 1000 ⟨2025, 3, 1⟩ 90
    (by norm_num) (by decide)

end Recoup
